import Mathlib

/-!
# goodCare-Frontend: Loading sequencer and caregiver Dashboard

A shallow embedding of `src/common/component/Loading.js` and
`src/pages/caregiver/DashBoard.js`.

* JavaScript values that the two components inspect are embedded as `JsVal`
  (primitives, plus the two kinds of object that a property read on an object
  literal can produce: a built-in function and a plain object).
* The `useEffect` body of `Loading` is embedded as a step function on
  `LoadingState`, driven by the events the browser can deliver to it: an
  interval tick, the settlement of a pending `getAIAnalysis()` promise, the
  firing of a 1500 ms timeout, and the effect cleanup.
* `Dashboard` is embedded as pure functions on `DashState`; the outcome of the
  HTTP request is an argument of `fetchData`.
-/

namespace GoodCare

/-! ## JavaScript values -/

/-- The digits of a number without its trailing zeros. -/
def stripTrailingZeros (ds : List Char) : List Char :=
  (ds.reverse.dropWhile (· = '0')).reverse

/-- A JavaScript Number, held the way `Number::toString` reads it.  A finite
non-zero number is given by its sign, by the decimal digits `d₁ … d_k` of the
shortest decimal that reads back as the number (so neither `d₁` nor `d_k` is
`0`), and by the exponent `n` with value `0.d₁…d_k × 10ⁿ`: 120 has digits
`12` and `n = 3`, 36.5 has digits `365` and `n = 2`, 1e21 has digit `1` and
`n = 22`. -/
inductive JsNum where
  | nan : JsNum
  | infinity (negative : Bool) : JsNum
  | zero (negative : Bool) : JsNum
  | finite (negative : Bool) (digits : List Char) (n : Int) : JsNum
  deriving DecidableEq, Repr

namespace JsNum

/-- The largest integer below which every integer is a Number of its own
(`Number.MAX_SAFE_INTEGER`). -/
def maxSafeInteger : Nat := 9007199254740991

/-- The Number of a natural number up to `maxSafeInteger`: its decimal digits
without the trailing zeros, and their count as exponent. -/
def ofNat (m : Nat) : JsNum :=
  if m = 0 then zero false
  else finite false (stripTrailingZeros (Nat.toDigits 10 m)) (Nat.toDigits 10 m).length

/-- The text of `e` with its sign, as in the exponent part of a Number. -/
def exponentChars (e : Int) : List Char :=
  (if e < 0 then '-' else '+') :: Nat.toDigits 10 e.natAbs

/-- ECMAScript `Number::toString` (radix 10) for a positive finite number
with digits `ds` and exponent `n`: plain digits with zeros appended when
`k ≤ n ≤ 21`, a decimal point inside the digits when `0 < n ≤ 21`, a leading
`0.` and zeros when `-6 < n ≤ 0`, and exponent form otherwise. -/
def finiteChars (ds : List Char) (n : Int) : List Char :=
  if (ds.length : Int) ≤ n ∧ n ≤ 21 then
    ds ++ List.replicate (n - ds.length).toNat '0'
  else if 0 < n ∧ n ≤ 21 then
    ds.take n.toNat ++ '.' :: ds.drop n.toNat
  else if -6 < n ∧ n ≤ 0 then
    '0' :: '.' :: (List.replicate (-n).toNat '0' ++ ds)
  else
    match ds with
    | [] => 'e' :: exponentChars (n - 1)
    | [d] => d :: 'e' :: exponentChars (n - 1)
    | d :: rest => d :: '.' :: (rest ++ 'e' :: exponentChars (n - 1))

/-- ECMAScript `Number::toString` (radix 10). -/
def toStr : JsNum → String
  | nan => "NaN"
  | infinity false => "Infinity"
  | infinity true => "-Infinity"
  | zero _ => "0"
  | finite false ds n => String.mk (finiteChars ds n)
  | finite true ds n => String.mk ('-' :: finiteChars ds n)

/-- ECMAScript `ToBoolean` on a Number: false for zero and `NaN`. -/
def truthy : JsNum → Bool
  | nan => false
  | zero _ => false
  | _ => true

end JsNum

/-- The JavaScript values read by the two components: the primitives, and the
two kinds of object a property read on an object literal can give, a
built-in function (`fn name`) and a plain object without an own
`toString`. -/
inductive JsVal where
  | undefined : JsVal
  | null : JsVal
  | bool (b : Bool) : JsVal
  | num (x : JsNum) : JsVal
  | str (s : String) : JsVal
  | fn (name : String) : JsVal
  | object : JsVal
  deriving DecidableEq, Repr

namespace JsVal

/-- ECMAScript `ToBoolean`. -/
def truthy : JsVal → Bool
  | undefined => false
  | null => false
  | bool b => b
  | num x => x.truthy
  | str s => s != ""
  | fn _ => true
  | object => true

/-- ECMAScript `ToString`, as applied by template literals and by property
keys.  A built-in function prints as V8 prints it. -/
def toStr : JsVal → String
  | undefined => "undefined"
  | null => "null"
  | bool true => "true"
  | bool false => "false"
  | num x => x.toStr
  | str s => s
  | fn name => "function " ++ name ++ "() \x7b [native code] \x7d"
  | object => "[object Object]"

/-- The JavaScript `a || b`. -/
def or (a b : JsVal) : JsVal := if a.truthy then a else b

end JsVal

/-! ## String helpers (`split`, `replace`) on character lists -/

/-- `String.prototype.split(sep)` for a one-character separator: the
segments between the occurrences of `sep`, in order.  The empty string has
the single segment `""`. -/
def splitChars (sep : Char) : List Char → List (List Char)
  | [] => [[]]
  | c :: cs =>
    if c = sep then [] :: splitChars sep cs
    else
      match splitChars sep cs with
      | [] => [[c]]
      | seg :: segs => (c :: seg) :: segs

/-- `s.split(sep)` on strings. -/
def jsSplit (s : String) (sep : Char) : List String :=
  (splitChars sep s.data).map String.mk

/-- `s.replace(/\. /g, '-')`: every occurrence of a dot followed by a blank,
scanning left to right, becomes a hyphen. -/
def replaceDotSpace : List Char → List Char
  | c :: d :: cs =>
    if c = '.' ∧ d = ' ' then '-' :: replaceDotSpace cs
    else c :: replaceDotSpace (d :: cs)
  | [c] => [c]
  | [] => []

/-- `s.replace('.', '')`: the first dot, if any, is deleted. -/
def removeFirstDot : List Char → List Char
  | [] => []
  | c :: cs => if c = '.' then cs else c :: removeFirstDot cs

/-! ## Calendar dates and their `ko-KR` rendering -/

/-- A calendar day as read from the wall clock in the `Asia/Seoul` zone. -/
structure CalDate where
  year : Nat
  month : Nat
  day : Nat
  deriving DecidableEq, Repr

/-- The decimal digit character of `n % 10`. -/
def digitChar (n : Nat) : Char := Char.ofNat (48 + n % 10)

/-- The two lowest decimal digits of `n`, zero padded. -/
def twoDigits (n : Nat) : List Char := [digitChar (n / 10), digitChar n]

/-- The four lowest decimal digits of `n`, zero padded. -/
def fourDigits (n : Nat) : List Char :=
  [digitChar (n / 1000), digitChar (n / 100), digitChar (n / 10), digitChar n]

/-- Modelled from the spec: the text that the host's
`toLocaleDateString('ko-KR', { year: 'numeric', month: '2-digit', day: '2-digit' })`
produces for a date with a four-digit year, `YYYY. MM. DD.` (the formatter
itself belongs to the JavaScript runtime, not to the repository). -/
def koKRDate (d : CalDate) : List Char :=
  fourDigits d.year ++ ['.', ' '] ++ twoDigits d.month ++ ['.', ' '] ++ twoDigits d.day ++ ['.']

/-- The chain `.replace(/\. /g, '-').replace('.', '')` of `processAnalysis`. -/
def normaliseDate (cs : List Char) : List Char :=
  removeFirstDot (replaceDotSpace cs)

/-- The constant `today` of `processAnalysis` when the clock shows `d`. -/
def todayString (d : CalDate) : String :=
  String.mk (normaliseDate (koKRDate d))

/-- The number written by a list of decimal digit characters. -/
def digitsValue (cs : List Char) : Nat :=
  cs.foldl (fun acc c => 10 * acc + (c.toNat - 48)) 0

/-! ## `Loading.js`: the sequencer -/

def CHARACTER_STATES : List String :=
  ["Excellent", "Good", "Neutral", "Poor", "Terrible"]

def CHARACTER_COLORS : List String :=
  ["green", "red", "yellow"]

/-- The image catalogue built at the top of the effect. -/
def allCombinations : List String :=
  (CHARACTER_STATES.map fun state =>
    CHARACTER_COLORS.map fun color => "/img/marimo/" ++ state ++ "-" ++ color ++ ".png").flatten

def maxCount : Nat := 10

/-- The `state` object handed to `navigate`; an absent field is `none`. -/
structure NavState (α : Type) where
  analysisData : Option α
  date : Option String
  error : Option String
  deriving DecidableEq, Repr

/-- One activation of the effect of `Loading`: the closure variables `count`
and `interval`, the three pieces of React state, the `getAIAnalysis()`
promises still pending (each with the `today` its caller computed), the
1500 ms timeouts still pending, and the two observable effects: how often
`getAIAnalysis` was called and which navigations were performed. -/
structure LoadingState (α : Type) where
  count : Nat
  intervalActive : Bool
  currentImage : String
  displayMessage : String
  showFinalState : Bool
  pending : List String
  timeouts : List (NavState α)
  analysisCalls : Nat
  navigations : List (String × NavState α)
  deriving DecidableEq, Repr

/-- How a `getAIAnalysis()` promise settles. -/
inductive Outcome (α : Type) where
  | resolved (analysisResult : α)
  | rejected
  deriving DecidableEq, Repr

/-- What the browser can deliver to one activation.  A tick carries the value
of `Math.floor(Math.random() * 15)` and the clock reading of that moment. -/
inductive Event (α : Type) where
  | tick (randomIndex : Fin 15) (clock : CalDate)
  | settle (i : Nat) (outcome : Outcome α)
  | timeout (j : Nat)
  | cleanup
  deriving DecidableEq, Repr

/-- The state right after the effect body has run: the interval is
installed and the first catalogue image is shown. -/
def LoadingState.init (α : Type) (message : String) : LoadingState α where
  count := 0
  intervalActive := true
  currentImage := allCombinations.getD 0 ""
  displayMessage := message
  showFinalState := false
  pending := []
  timeouts := []
  analysisCalls := 0
  navigations := []

/-- The part of `processAnalysis` before the `await`: `today` is computed and
`getAIAnalysis()` is called. -/
def processAnalysis {α : Type} (clock : CalDate) (s : LoadingState α) : LoadingState α :=
  { s with
    pending := s.pending ++ [todayString clock]
    analysisCalls := s.analysisCalls + 1 }

/-- The part of `processAnalysis` after the `await`, for the call whose
`today` is given. -/
def resumeAnalysis {α : Type} (today : String) (o : Outcome α) (s : LoadingState α) :
    LoadingState α :=
  match o with
  | .resolved analysisResult =>
    { s with
      intervalActive := false
      currentImage := "/img/marimo/Excellent-green.png"
      displayMessage := "결과 분석 완료!"
      showFinalState := true
      timeouts := s.timeouts ++
        [{ analysisData := some analysisResult, date := some today, error := none }] }
  | .rejected =>
    { s with
      displayMessage := "분석 중 오류가 발생했습니다"
      timeouts := s.timeouts ++
        [{ analysisData := none, date := none, error := some "분석 중 오류가 발생했습니다." }] }

/-- The callback given to `setInterval`. -/
def intervalCallback {α : Type} (randomIndex : Fin 15) (clock : CalDate) (s : LoadingState α) :
    LoadingState α :=
  if s.count < maxCount then
    { s with
      currentImage := allCombinations.getD randomIndex.val ""
      count := s.count + 1 }
  else
    processAnalysis clock s

/-- One event.  A cleared interval does not tick, and only a pending promise
or timeout can complete; such events leave the state as it is. -/
def step {α : Type} (s : LoadingState α) : Event α → LoadingState α
  | .tick randomIndex clock =>
    if s.intervalActive then intervalCallback randomIndex clock s else s
  | .settle i o =>
    match s.pending[i]? with
    | none => s
    | some today => resumeAnalysis today o { s with pending := s.pending.eraseIdx i }
  | .timeout j =>
    match s.timeouts[j]? with
    | none => s
    | some st =>
      { s with
        timeouts := s.timeouts.eraseIdx j
        navigations := s.navigations ++ [("/diagnosis/result", st)] }
  | .cleanup => { s with intervalActive := false }

/-- A run of the activation over a sequence of events. -/
def run {α : Type} (s : LoadingState α) (es : List (Event α)) : LoadingState α :=
  es.foldl step s

/-- The events of `n` consecutive ticks with given random choices and clock
readings. -/
def ticks {α : Type} (rs : List (Fin 15 × CalDate)) : List (Event α) :=
  rs.map fun r => Event.tick r.1 r.2

/-- A torn-down activation with nothing pending: no interval, no promise, no
timeout, and nothing observed so far. -/
def Quiet {α : Type} (s : LoadingState α) : Prop :=
  s.intervalActive = false ∧ s.pending = [] ∧ s.timeouts = [] ∧
    s.analysisCalls = 0 ∧ s.navigations = []

/-- An activation on 30 November 2024 in which every tick picks image 3. -/
def sampleTicks (n : Nat) : List (Event Nat) :=
  ticks (List.replicate n (3, ⟨2024, 11, 30⟩))

/-- The state of that activation after `n` ticks. -/
def sampleAfter (n : Nat) : LoadingState Nat :=
  run (LoadingState.init Nat "분석 중") (sampleTicks n)

/-! ## `DashBoard.js`: data model -/

/-- The `vitalSigns` object of a checklist record. -/
structure VitalSigns where
  bloodPressureSys : JsVal
  bloodPressureDia : JsVal
  oxygen : JsVal
  temperature : JsVal
  pulse : JsVal
  deriving DecidableEq, Repr

/-- The `dailyCheckList` object of a checklist record. -/
structure DailyCheckList where
  analysisWord : JsVal
  analysisData : JsVal
  analysisFullData : JsVal
  deriving DecidableEq, Repr

/-- The `data` payload of the checklist endpoint; a missing or null member
is `none`. -/
structure ChecklistRecord where
  vitalSigns : Option VitalSigns
  dailyCheckList : Option DailyCheckList
  deriving DecidableEq, Repr

/-- The `patientInfo` member of a session. -/
structure PatientInfo where
  code : JsVal
  deriving DecidableEq, Repr

/-- The object returned by `getUserSession()`. -/
structure Session where
  patientInfo : Option PatientInfo
  code : JsVal
  deriving DecidableEq, Repr

/-- A `Date` object: `toISOString()` yields a string, or throws a
`RangeError` (`none`) when the date is invalid. -/
structure JsDate where
  iso : Option String
  deriving DecidableEq, Repr

/-- What the request of `fetchData` does: `fetch` rejects, the response has
`ok` false, `response.json()` rejects, or the body is an envelope. -/
inductive FetchOutcome where
  | networkError
  | httpError
  | badJson
  | envelope (success : JsVal) (data : Option ChecklistRecord)
  deriving DecidableEq, Repr

/-- The observable actions of `fetchData`, in program order. -/
inductive DashEffect where
  | setIsLoading (b : Bool)
  | fetch (url : String)
  | setChecklistData (data : Option ChecklistRecord)
  | consoleError
  deriving DecidableEq, Repr

/-- The React state of `Dashboard` and the actions performed so far. -/
structure DashState where
  checklistData : Option ChecklistRecord
  selectedVital : String
  isLoading : Bool
  selectedDate : JsDate
  isDatePickerOpen : Bool
  trace : List DashEffect
  deriving DecidableEq, Repr

/-- The `useState` initial values; `now` is `new Date()`. -/
def DashState.init (now : JsDate) : DashState where
  checklistData := none
  selectedVital := "bloodPressure"
  isLoading := true
  selectedDate := now
  isDatePickerOpen := false
  trace := []

/-! ## `DashBoard.js`: property reads on an object literal -/

/-- The properties every object literal inherits from `Object.prototype`
(ECMAScript, with the Annex B accessors of browsers), with the value a read
yields: the built-in function, or for `__proto__` the prototype object. -/
def objectPrototype : List (String × JsVal) :=
  [("constructor", .fn "Object"),
   ("hasOwnProperty", .fn "hasOwnProperty"),
   ("isPrototypeOf", .fn "isPrototypeOf"),
   ("propertyIsEnumerable", .fn "propertyIsEnumerable"),
   ("toLocaleString", .fn "toLocaleString"),
   ("toString", .fn "toString"),
   ("valueOf", .fn "valueOf"),
   ("__defineGetter__", .fn "__defineGetter__"),
   ("__defineSetter__", .fn "__defineSetter__"),
   ("__lookupGetter__", .fn "__lookupGetter__"),
   ("__lookupSetter__", .fn "__lookupSetter__"),
   ("__proto__", .object)]

/-- The read `obj[key]` on an object literal with the given own properties:
own properties first, then the prototype, else `undefined`. -/
def getProp (own : List (String × JsVal)) (key : JsVal) : JsVal :=
  match own.lookup key.toStr with
  | some v => v
  | none =>
    match objectPrototype.lookup key.toStr with
    | some v => v
    | none => .undefined

/-! ## `DashBoard.js`: functions -/

/-- The table of `getCharacterImage`. -/
def imageTypes : List (String × JsVal) :=
  [("좋음", .str "Excellent-green"),
   ("보통", .str "Neutral-yellow"),
   ("나쁨", .str "Poor-red")]

def getCharacterImage (status : JsVal) : String :=
  "/img/marimo/" ++ ((getProp imageTypes status).or (.str "Neutral-yellow")).toStr ++ ".png"

/-- The expression `userInfo?.patientInfo?.code || userInfo?.code`. -/
def patientCode (userInfo : Option Session) : JsVal :=
  let viaPatientInfo : JsVal :=
    match userInfo with
    | none => .undefined
    | some u =>
      match u.patientInfo with
      | none => .undefined
      | some p => p.code
  let direct : JsVal :=
    match userInfo with
    | none => .undefined
    | some u => u.code
  viaPatientInfo.or direct

/-- The URL built by `fetchData`. -/
def checklistUrl (apiUrl formattedDate : String) (code : JsVal) : String :=
  apiUrl ++ "/patient/daily-check/get/checklist?date=" ++ formattedDate ++ "&code=" ++ code.toStr

/-- Appends an action to the trace. -/
def DashState.emit (s : DashState) (e : DashEffect) : DashState :=
  { s with trace := s.trace ++ [e] }

/-- The body of the `try` block of `fetchData` after `setIsLoading(true)`;
a thrown error ends in the `catch` block, which logs it. -/
def fetchBody (apiUrl : String) (userInfo : Option Session) (date : JsDate) (o : FetchOutcome)
    (s : DashState) : DashState :=
  match date.iso with
  | none => s.emit .consoleError
  | some iso =>
    let formattedDate := (jsSplit iso 'T').headD ""
    let s1 := s.emit (.fetch (checklistUrl apiUrl formattedDate (patientCode userInfo)))
    match o with
    | .networkError => s1.emit .consoleError
    | .httpError => s1
    | .badJson => s1.emit .consoleError
    | .envelope success data =>
      if success.truthy then
        { s1.emit (.setChecklistData data) with checklistData := data }
      else s1

/-- The function `fetchData(date)`, run to its settlement. -/
def fetchData (apiUrl : String) (userInfo : Option Session) (date : JsDate) (o : FetchOutcome)
    (s : DashState) : DashState :=
  let s1 := { s.emit (.setIsLoading true) with isLoading := true }
  let s2 := fetchBody apiUrl userInfo date o s1
  { s2.emit (.setIsLoading false) with isLoading := false }

/-- The mount effect: `if (userInfo) fetchData(selectedDate)`. -/
def mount (apiUrl : String) (userInfo : Option Session) (o : FetchOutcome) (s : DashState) :
    DashState :=
  match userInfo with
  | some _ => fetchData apiUrl userInfo s.selectedDate o s
  | none => s

def handleDateSelect (apiUrl : String) (userInfo : Option Session) (date : JsDate)
    (o : FetchOutcome) (s : DashState) : DashState :=
  fetchData apiUrl userInfo date o { s with selectedDate := date, isDatePickerOpen := false }

/-- The requests issued so far. -/
def DashState.fetches (s : DashState) : List String :=
  s.trace.filterMap fun e =>
    match e with
    | .fetch url => some url
    | _ => none

def getCurrentValue (checklistData : Option ChecklistRecord) (selectedVital : String) : JsVal :=
  match checklistData.bind (·.vitalSigns) with
  | none => .str "--"
  | some vitalSigns =>
    if selectedVital = "bloodPressure" then
      .str (vitalSigns.bloodPressureSys.toStr ++ "/" ++ vitalSigns.bloodPressureDia.toStr)
    else if selectedVital = "oxygen" then vitalSigns.oxygen
    else if selectedVital = "temperature" then vitalSigns.temperature
    else if selectedVital = "pulse" then vitalSigns.pulse
    else .str "--"

/-- The chain `checklistData?.dailyCheckList?.analysisFullData`. -/
def analysisFullData (checklistData : Option ChecklistRecord) : JsVal :=
  match checklistData.bind (·.dailyCheckList) with
  | none => .undefined
  | some l => l.analysisFullData

/-- The `li` texts of the patient-analysis list:
`analysisFullData?.split('\n')?.map(line => • line) || [• 분석 데이터가 없습니다.]`.
The result is `none` when the expression throws (a value without `split`). -/
def analysisBullets (checklistData : Option ChecklistRecord) : Option (List String) :=
  match analysisFullData checklistData with
  | .undefined => some ["• 분석 데이터가 없습니다."]
  | .null => some ["• 분석 데이터가 없습니다."]
  | .str s => some ((jsSplit s '\n').map fun line => "• " ++ line)
  | _ => none

/-- The parts of the rendered page that depend on the checklist. -/
inductive View where
  | loadingPlaceholder
  | dashboard (characterImage : String) (analysisText : JsVal) (currentValue : JsVal)
      (bullets : List String)
  deriving DecidableEq, Repr

/-- The render function of `Dashboard`; `none` when rendering throws. -/
def render (s : DashState) : Option View :=
  if s.isLoading then some .loadingPlaceholder
  else
    (analysisBullets s.checklistData).map fun bullets =>
      .dashboard
        (getCharacterImage
          (match s.checklistData.bind (·.dailyCheckList) with
           | none => .undefined
           | some l => l.analysisWord))
        ((match s.checklistData.bind (·.dailyCheckList) with
          | none => JsVal.undefined
          | some l => l.analysisData).or (.str "분석 결과가 없습니다."))
        (getCurrentValue s.checklistData s.selectedVital)
        bullets

/-- `Array.prototype.join(sep)` on segments of characters: the inverse of
`splitChars`. -/
def joinChars (sep : Char) : List (List Char) → List Char
  | [] => []
  | [seg] => seg
  | seg :: next :: segs => seg ++ sep :: joinChars sep (next :: segs)

/-- A session object that has neither `patientInfo` nor `code`. -/
def emptySession : Session := ⟨none, .undefined⟩

/-- The component state at a mount on 30 November 2024. -/
def sampleMount : DashState := DashState.init ⟨some "2024-11-30T03:00:00.000Z"⟩

/-- A day with blood pressure 120/80, oxygen saturation 98, temperature 36.5
and pulse 72. -/
def sampleVitals : VitalSigns :=
  ⟨.num (.ofNat 120), .num (.ofNat 80), .num (.ofNat 98), .num (.finite false ['3', '6', '5'] 2),
    .num (.ofNat 72)⟩

/-- A day with blood pressure 120.5/80.25. -/
def fractionalRecord : ChecklistRecord :=
  ⟨some { sampleVitals with
      bloodPressureSys := .num (.finite false ['1', '2', '0', '5'] 3)
      bloodPressureDia := .num (.finite false ['8', '0', '2', '5'] 2) }, none⟩

/-- A record whose systolic field holds the number 1e21. -/
def hugeRecord : ChecklistRecord :=
  ⟨some { sampleVitals with bloodPressureSys := .num (.finite false ['1'] 22) }, none⟩

/-- A checklist record with the given analysis detail. -/
def sampleRecord (detail : JsVal) : ChecklistRecord :=
  ⟨some sampleVitals, some ⟨.str "좋음", .str "양호합니다", detail⟩⟩

end GoodCare

namespace GoodCare

/-! ## The sequencer: runs -/

theorem run_nil {α : Type} (s : LoadingState α) : run s [] = s := rfl

theorem run_cons {α : Type} (s : LoadingState α) (e : Event α) (es : List (Event α)) :
    run s (e :: es) = run (step s e) es := rfl

theorem run_append {α : Type} (s : LoadingState α) (es fs : List (Event α)) :
    run s (es ++ fs) = run (run s es) fs := by
  simp [run, List.foldl_append]

theorem ticks_cons {α : Type} (r : Fin 15 × CalDate) (rs : List (Fin 15 × CalDate)) :
    (ticks (r :: rs) : List (Event α)) = Event.tick r.1 r.2 :: ticks rs := rfl

theorem step_tick_animating {α : Type} (s : LoadingState α) (r : Fin 15) (c : CalDate)
    (hact : s.intervalActive = true) (hlt : s.count < maxCount) :
    step s (Event.tick r c) =
      { s with currentImage := allCombinations.getD r.val "", count := s.count + 1 } := by
  simp [step, hact, intervalCallback, hlt]

theorem step_tick_budget_spent {α : Type} (s : LoadingState α) (r : Fin 15) (c : CalDate)
    (hact : s.intervalActive = true) (hge : ¬ s.count < maxCount) :
    step s (Event.tick r c) = processAnalysis c s := by
  simp [step, hact, intervalCallback, hge]

/-- While the counter stays within the budget, ticks only advance the counter
and change the image. -/
theorem run_ticks_within_budget {α : Type} (rs : List (Fin 15 × CalDate)) :
    ∀ s : LoadingState α, s.intervalActive = true → s.count + rs.length ≤ maxCount →
      (run s (ticks rs)).count = s.count + rs.length ∧
      (run s (ticks rs)).intervalActive = true ∧
      (run s (ticks rs)).pending = s.pending ∧
      (run s (ticks rs)).timeouts = s.timeouts ∧
      (run s (ticks rs)).analysisCalls = s.analysisCalls ∧
      (run s (ticks rs)).navigations = s.navigations := by
  induction rs with
  | nil => intro s h _; simp [ticks, run_nil, h]
  | cons r rs ih =>
    intro s hact hlen
    simp only [List.length_cons] at hlen
    have hlt : s.count < maxCount := by omega
    have hstep := step_tick_animating s r.1 r.2 hact hlt
    obtain ⟨h1, h2, h3, h4, h5, h6⟩ := ih (step s (Event.tick r.1 r.2))
      (by rw [hstep]; exact hact) (by rw [hstep]; simp only; omega)
    rw [ticks_cons, run_cons]
    rw [hstep] at h1 h3 h4 h5 h6
    simp only at h1 h3 h4 h5 h6
    rw [← hstep] at h1 h3 h4 h5 h6
    refine ⟨?_, h2, h3, h4, h5, h6⟩
    rw [h1, List.length_cons]
    omega

/-- With the interval running and no settlement in between, every tick past
the budget calls `getAIAnalysis` again. -/
theorem analysisCalls_run_ticks {α : Type} (rs : List (Fin 15 × CalDate)) :
    ∀ s : LoadingState α, s.intervalActive = true →
      (run s (ticks rs)).analysisCalls =
        s.analysisCalls + (s.count + rs.length - max s.count maxCount) := by
  induction rs with
  | nil => intro s _; simp only [ticks, List.map_nil, run_nil, List.length_nil]; omega
  | cons r rs ih =>
    intro s hact
    rw [ticks_cons, run_cons]
    by_cases hlt : s.count < maxCount
    · have hstep := step_tick_animating s r.1 r.2 hact hlt
      have h := ih (step s (Event.tick r.1 r.2)) (by rw [hstep]; exact hact)
      rw [h, hstep]
      simp only [List.length_cons, maxCount] at *
      omega
    · have hstep := step_tick_budget_spent s r.1 r.2 hact hlt
      have h := ih (step s (Event.tick r.1 r.2)) (by rw [hstep]; exact hact)
      rw [h, hstep]
      simp only [List.length_cons, maxCount, processAnalysis] at *
      omega

theorem quiet_step {α : Type} (s : LoadingState α) (e : Event α) (h : Quiet s) :
    Quiet (step s e) := by
  obtain ⟨h1, h2, h3, h4, h5⟩ := h
  cases e with
  | tick r c => simp [step, h1, Quiet, h2, h3, h4, h5]
  | settle i o => simp [step, h2, Quiet, h1, h3, h4, h5]
  | timeout j => simp [step, h3, Quiet, h1, h2, h4, h5]
  | cleanup => simp [step, Quiet, h2, h3, h4, h5]

theorem quiet_run {α : Type} (es : List (Event α)) :
    ∀ s : LoadingState α, Quiet s → Quiet (run s es) := by
  induction es with
  | nil => intro s h; simpa [run_nil] using h
  | cons e es ih => intro s h; rw [run_cons]; exact ih _ (quiet_step s e h)

/-- A pending timeout that fires performs its navigation. -/
theorem step_timeout_navigates {α : Type} (t : LoadingState α) (j : Nat) (st : NavState α)
    (h : t.timeouts[j]? = some st) :
    (step t (Event.timeout j)).navigations = t.navigations ++ [("/diagnosis/result", st)] := by
  simp [step, h]

/-! ## The sequencer: claims -/

/-- C3: when the cleanup runs after `k < 10` ticks, whatever the random
choices and whatever events follow, `getAIAnalysis` has not been called and
no navigation has been performed, at the cleanup and after every later
event. -/
theorem teardown_before_budget_is_silent {α : Type} (message : String)
    (rs : List (Fin 15 × CalDate)) (later : List (Event α)) (hk : rs.length < 10) :
    (run (LoadingState.init α message) (ticks rs ++ [Event.cleanup] ++ later)).analysisCalls = 0 ∧
    (run (LoadingState.init α message) (ticks rs ++ [Event.cleanup] ++ later)).navigations = [] := by
  have h := run_ticks_within_budget rs (LoadingState.init α message) rfl
    (by simp only [LoadingState.init, maxCount]; omega)
  have hq : Quiet (run (LoadingState.init α message) (ticks rs ++ [Event.cleanup])) := by
    rw [run_append, run_cons, run_nil]
    refine ⟨rfl, ?_, ?_, ?_, ?_⟩
    · simpa [step, LoadingState.init] using h.2.2.1
    · simpa [step, LoadingState.init] using h.2.2.2.1
    · simpa [step, LoadingState.init] using h.2.2.2.2.1
    · simpa [step, LoadingState.init] using h.2.2.2.2.2
  have hfin := quiet_run later _ hq
  rw [← run_append] at hfin
  exact ⟨hfin.2.2.2.1, hfin.2.2.2.2⟩

theorem teardown_before_budget_is_silent_witness :
    (run (LoadingState.init Nat "분석 중")
      (ticks [(3, ⟨2024, 11, 30⟩), (7, ⟨2024, 11, 30⟩)] ++ [Event.cleanup] ++
        [Event.tick 1 ⟨2024, 11, 30⟩, Event.settle 0 (Outcome.resolved 5),
          Event.timeout 0])).analysisCalls = 0 ∧
    (run (LoadingState.init Nat "분석 중")
      (ticks [(3, ⟨2024, 11, 30⟩), (7, ⟨2024, 11, 30⟩)] ++ [Event.cleanup] ++
        [Event.tick 1 ⟨2024, 11, 30⟩, Event.settle 0 (Outcome.resolved 5),
          Event.timeout 0])).navigations = [] :=
  teardown_before_budget_is_silent "분석 중" [(3, ⟨2024, 11, 30⟩), (7, ⟨2024, 11, 30⟩)]
    [Event.tick 1 ⟨2024, 11, 30⟩, Event.settle 0 (Outcome.resolved 5), Event.timeout 0]
    (by decide)

/-- C7: when the pending call with captured date `today` settles, the
navigation it schedules, and which the 1500 ms timeout then performs to
`/diagnosis/result`, carries on success exactly the returned value and the
date and no error, and on failure only the error text. -/
theorem settlement_determines_nav_state {α : Type} (s : LoadingState α) (i : Nat)
    (today : String) (hp : s.pending[i]? = some today) :
    (∀ analysisResult : α,
      (step s (Event.settle i (Outcome.resolved analysisResult))).timeouts =
          s.timeouts ++
            [{ analysisData := some analysisResult, date := some today, error := none }] ∧
      (step (step s (Event.settle i (Outcome.resolved analysisResult)))
          (Event.timeout s.timeouts.length)).navigations =
          s.navigations ++ [("/diagnosis/result",
            { analysisData := some analysisResult, date := some today, error := none })]) ∧
    ((step s (Event.settle i Outcome.rejected)).timeouts =
          s.timeouts ++
            [{ analysisData := none, date := none, error := some "분석 중 오류가 발생했습니다." }] ∧
      (step (step s (Event.settle i Outcome.rejected))
          (Event.timeout s.timeouts.length)).navigations =
          s.navigations ++ [("/diagnosis/result",
            { analysisData := none, date := none, error := some "분석 중 오류가 발생했습니다." })]) := by
  refine ⟨fun analysisResult => ?_, ?_⟩
  · have h1 : (step s (Event.settle i (Outcome.resolved analysisResult))).timeouts =
        s.timeouts ++
          [{ analysisData := some analysisResult, date := some today, error := none }] := by
      simp [step, hp, resumeAnalysis]
    have h2 : (step s (Event.settle i (Outcome.resolved analysisResult))).navigations =
        s.navigations := by
      simp [step, hp, resumeAnalysis]
    refine ⟨h1, ?_⟩
    rw [step_timeout_navigates _ _ _ (by rw [h1]; simp; rfl), h2]
  · have h1 : (step s (Event.settle i Outcome.rejected)).timeouts =
        s.timeouts ++
          [{ analysisData := none, date := none, error := some "분석 중 오류가 발생했습니다." }] := by
      simp [step, hp, resumeAnalysis]
    have h2 : (step s (Event.settle i (Outcome.rejected : Outcome α))).navigations =
        s.navigations := by
      simp [step, hp, resumeAnalysis]
    refine ⟨h1, ?_⟩
    rw [step_timeout_navigates _ _ _ (by rw [h1]; simp; rfl), h2]

theorem settlement_determines_nav_state_witness :
    (sampleAfter 11).pending[0]? = some "2024-11-30" ∧
    ((∀ analysisResult : Nat,
      (step (sampleAfter 11) (Event.settle 0 (Outcome.resolved analysisResult))).timeouts =
          (sampleAfter 11).timeouts ++
            [{ analysisData := some analysisResult, date := some "2024-11-30", error := none }] ∧
      (step (step (sampleAfter 11) (Event.settle 0 (Outcome.resolved analysisResult)))
          (Event.timeout (sampleAfter 11).timeouts.length)).navigations =
          (sampleAfter 11).navigations ++ [("/diagnosis/result",
            { analysisData := some analysisResult, date := some "2024-11-30", error := none })]) ∧
    ((step (sampleAfter 11) (Event.settle 0 Outcome.rejected)).timeouts =
          (sampleAfter 11).timeouts ++
            [{ analysisData := none, date := none, error := some "분석 중 오류가 발생했습니다." }] ∧
      (step (step (sampleAfter 11) (Event.settle 0 Outcome.rejected))
          (Event.timeout (sampleAfter 11).timeouts.length)).navigations =
          (sampleAfter 11).navigations ++ [("/diagnosis/result",
            { analysisData := none, date := none, error := some "분석 중 오류가 발생했습니다." })])) :=
  ⟨by decide, settlement_determines_nav_state (sampleAfter 11) 0 "2024-11-30" (by decide)⟩

/-- C1: the first call of `getAIAnalysis` is made by the eleventh tick, after
ten image ticks; the interval is not cleared at that point, so the twelfth
tick, arriving while the first call is still pending, calls it a second time,
and so does the tick that follows a rejected call. -/
theorem analysis_called_again_by_next_tick :
    (sampleAfter 10).analysisCalls = 0 ∧
    (sampleAfter 11).analysisCalls = 1 ∧
    (sampleAfter 11).intervalActive = true ∧
    (sampleAfter 12).analysisCalls = 2 ∧
    (run (sampleAfter 11)
      [Event.settle 0 Outcome.rejected, Event.tick 3 ⟨2024, 11, 30⟩]).analysisCalls = 2 := by
  decide

/-- C2: an activation without cleanup whose analysis takes longer than one
tick period: both calls made by ticks 11 and 12 resolve, both timeouts fire,
and two navigations to `/diagnosis/result` are performed. -/
theorem two_navigations_when_analysis_is_slow :
    (run (sampleAfter 12)
      [Event.settle 0 (Outcome.resolved 7), Event.settle 0 (Outcome.resolved 7),
        Event.timeout 0, Event.timeout 0]).navigations =
      [("/diagnosis/result",
          { analysisData := some 7, date := some "2024-11-30", error := none }),
       ("/diagnosis/result",
          { analysisData := some 7, date := some "2024-11-30", error := none })] := by
  decide

/-! ## The date sent on success -/

theorem digitChar_facts (n : Nat) :
    digitChar n ≠ '.' ∧ digitChar n ≠ ' ' ∧ (digitChar n).toNat - 48 = n % 10 ∧
      (digitChar n).isDigit = true := by
  have h : ∀ k : Fin 10,
      Char.ofNat (48 + k.val) ≠ '.' ∧ Char.ofNat (48 + k.val) ≠ ' ' ∧
        (Char.ofNat (48 + k.val)).toNat - 48 = k.val ∧
        (Char.ofNat (48 + k.val)).isDigit = true := by
    decide
  exact h ⟨n % 10, Nat.mod_lt _ (by decide)⟩

/-- The normalisation on any text of the shape `abcd. ef. gh.` whose eight
characters are not dots. -/
theorem normaliseDate_shape (a b c d e f g h : Char)
    (ha : a ≠ '.') (hb : b ≠ '.') (hc : c ≠ '.') (hd : d ≠ '.')
    (he : e ≠ '.') (hf : f ≠ '.') (hg : g ≠ '.') (hh : h ≠ '.') :
    normaliseDate [a, b, c, d, '.', ' ', e, f, '.', ' ', g, h, '.'] =
      [a, b, c, d, '-', e, f, '-', g, h] := by
  simp [normaliseDate, replaceDotSpace, removeFirstDot, ha, hb, hc, hd, he, hf, hg, hh]

/-- C10: for a date with a four-digit year, the normalisation of
`processAnalysis` turns the rendering `YYYY. MM. DD.` into the ten characters
`YYYY-MM-DD`: four digits, a hyphen, two digits, a hyphen, two digits, which
read back as the same year, month and day, with no dot and no blank left. -/
theorem today_is_iso_date (d : CalDate)
    (hy : 1000 ≤ d.year ∧ d.year ≤ 9999) (hm : 1 ≤ d.month ∧ d.month ≤ 12)
    (hd : 1 ≤ d.day ∧ d.day ≤ 31) :
    normaliseDate (koKRDate d) =
      fourDigits d.year ++ '-' :: (twoDigits d.month ++ '-' :: twoDigits d.day) ∧
    todayString d =
      String.mk (fourDigits d.year ++ '-' :: (twoDigits d.month ++ '-' :: twoDigits d.day)) ∧
    (normaliseDate (koKRDate d)).length = 10 ∧
    (∀ c ∈ fourDigits d.year ++ twoDigits d.month ++ twoDigits d.day, c.isDigit = true) ∧
    digitsValue (fourDigits d.year) = d.year ∧
    digitsValue (twoDigits d.month) = d.month ∧
    digitsValue (twoDigits d.day) = d.day ∧
    '.' ∉ normaliseDate (koKRDate d) ∧ ' ' ∉ normaliseDate (koKRDate d) := by
  have hnorm : normaliseDate (koKRDate d) =
      fourDigits d.year ++ '-' :: (twoDigits d.month ++ '-' :: twoDigits d.day) := by
    simpa [koKRDate, fourDigits, twoDigits] using
      normaliseDate_shape (digitChar (d.year / 1000)) (digitChar (d.year / 100))
        (digitChar (d.year / 10)) (digitChar d.year) (digitChar (d.month / 10))
        (digitChar d.month) (digitChar (d.day / 10)) (digitChar d.day)
        (digitChar_facts _).1 (digitChar_facts _).1 (digitChar_facts _).1 (digitChar_facts _).1
        (digitChar_facts _).1 (digitChar_facts _).1 (digitChar_facts _).1 (digitChar_facts _).1
  have hdot : ∀ n, ¬ '.' = digitChar n := fun n h => (digitChar_facts n).1 h.symm
  have hblank : ∀ n, ¬ ' ' = digitChar n := fun n h => (digitChar_facts n).2.1 h.symm
  refine ⟨hnorm, by rw [todayString, hnorm], by rw [hnorm]; simp [fourDigits, twoDigits],
    ?_, ?_, ?_, ?_, ?_, ?_⟩
  · intro c hc
    simp only [fourDigits, twoDigits, List.cons_append, List.nil_append, List.mem_cons,
      List.mem_singleton, List.mem_nil_iff, or_false] at hc
    rcases hc with h | h | h | h | h | h | h | h <;> rw [h] <;> exact (digitChar_facts _).2.2.2
  · have h1 := (digitChar_facts (d.year / 1000)).2.2.1
    have h2 := (digitChar_facts (d.year / 100)).2.2.1
    have h3 := (digitChar_facts (d.year / 10)).2.2.1
    have h4 := (digitChar_facts d.year).2.2.1
    simp only [digitsValue, fourDigits, List.foldl_cons, List.foldl_nil, h1, h2, h3, h4]
    omega
  · have h1 := (digitChar_facts (d.month / 10)).2.2.1
    have h2 := (digitChar_facts d.month).2.2.1
    simp only [digitsValue, twoDigits, List.foldl_cons, List.foldl_nil, h1, h2]
    omega
  · have h1 := (digitChar_facts (d.day / 10)).2.2.1
    have h2 := (digitChar_facts d.day).2.2.1
    simp only [digitsValue, twoDigits, List.foldl_cons, List.foldl_nil, h1, h2]
    omega
  · rw [hnorm]
    simp [fourDigits, twoDigits, hdot]
  · rw [hnorm]
    simp [fourDigits, twoDigits, hblank]

theorem today_is_iso_date_witness :
    ((1000 ≤ (⟨2024, 11, 30⟩ : CalDate).year ∧ (⟨2024, 11, 30⟩ : CalDate).year ≤ 9999) ∧
      (1 ≤ (⟨2024, 11, 30⟩ : CalDate).month ∧ (⟨2024, 11, 30⟩ : CalDate).month ≤ 12) ∧
      (1 ≤ (⟨2024, 11, 30⟩ : CalDate).day ∧ (⟨2024, 11, 30⟩ : CalDate).day ≤ 31)) ∧
    (normaliseDate (koKRDate ⟨2024, 11, 30⟩) =
      fourDigits 2024 ++ '-' :: (twoDigits 11 ++ '-' :: twoDigits 30) ∧
    todayString ⟨2024, 11, 30⟩ =
      String.mk (fourDigits 2024 ++ '-' :: (twoDigits 11 ++ '-' :: twoDigits 30)) ∧
    (normaliseDate (koKRDate ⟨2024, 11, 30⟩)).length = 10 ∧
    (∀ c ∈ fourDigits 2024 ++ twoDigits 11 ++ twoDigits 30, c.isDigit = true) ∧
    digitsValue (fourDigits 2024) = 2024 ∧
    digitsValue (twoDigits 11) = 11 ∧
    digitsValue (twoDigits 30) = 30 ∧
    '.' ∉ normaliseDate (koKRDate ⟨2024, 11, 30⟩) ∧
    ' ' ∉ normaliseDate (koKRDate ⟨2024, 11, 30⟩)) :=
  ⟨by decide, today_is_iso_date ⟨2024, 11, 30⟩ (by decide) (by decide) (by decide)⟩

/-! ## Numbers as text -/

/-- The stripped digits followed by the zeros that were stripped are the
digits. -/
theorem stripTrailingZeros_append (ds : List Char) :
    stripTrailingZeros ds ++
      List.replicate (ds.length - (stripTrailingZeros ds).length) '0' = ds := by
  have hsplit := List.takeWhile_append_dropWhile (fun c => decide (c = '0')) ds.reverse
  have hlen : ds.length =
      (ds.reverse.takeWhile (fun c => decide (c = '0'))).length +
        (ds.reverse.dropWhile (fun c => decide (c = '0'))).length := by
    have := congrArg List.length hsplit
    simp only [List.length_append, List.length_reverse] at this
    omega
  have hzeros : (ds.reverse.takeWhile (fun c => decide (c = '0'))).reverse =
      List.replicate (ds.reverse.takeWhile (fun c => decide (c = '0'))).length '0' := by
    rw [List.eq_replicate_iff]
    refine ⟨by simp, fun b hb => ?_⟩
    have := List.mem_takeWhile_imp (List.mem_reverse.mp hb)
    simpa using this
  have hds : ds = (ds.reverse.dropWhile (fun c => decide (c = '0'))).reverse ++
      (ds.reverse.takeWhile (fun c => decide (c = '0'))).reverse := by
    rw [← List.reverse_append, hsplit, List.reverse_reverse]
  have hk : ds.length - (stripTrailingZeros ds).length =
      (ds.reverse.takeWhile (fun c => decide (c = '0'))).length := by
    simp only [stripTrailingZeros, List.length_reverse]
    omega
  rw [hk, ← hzeros]
  exact hds.symm

/-- Every integer from 0 to `Number.MAX_SAFE_INTEGER` prints as its decimal
digits. -/
theorem JsNum.toStr_ofNat (m : Nat) (h : m ≤ JsNum.maxSafeInteger) :
    (JsNum.ofNat m).toStr = toString m := by
  by_cases hm : m = 0
  · subst hm; decide
  · have hlen : (Nat.toDigits 10 m).length ≤ 21 := by
      have hlt : m < 10 ^ 21 := by
        have h21 : JsNum.maxSafeInteger < 10 ^ 21 := by
          unfold JsNum.maxSafeInteger; norm_num
        exact lt_of_le_of_lt h h21
      exact Nat.repr_length m 21 (by decide) hlt
    have hk : (stripTrailingZeros (Nat.toDigits 10 m)).length ≤ (Nat.toDigits 10 m).length := by
      have := congrArg List.length (stripTrailingZeros_append (Nat.toDigits 10 m))
      simp only [List.length_append, List.length_replicate] at this
      omega
    have hcond : ((stripTrailingZeros (Nat.toDigits 10 m)).length : Int) ≤
        ((Nat.toDigits 10 m).length : Int) ∧ ((Nat.toDigits 10 m).length : Int) ≤ 21 := by
      constructor <;> omega
    have hsub : (((Nat.toDigits 10 m).length : Int) -
        ((stripTrailingZeros (Nat.toDigits 10 m)).length : Int)).toNat =
        (Nat.toDigits 10 m).length - (stripTrailingZeros (Nat.toDigits 10 m)).length := by
      omega
    simp only [JsNum.ofNat, hm, if_false, JsNum.toStr, JsNum.finiteChars, hcond, and_self,
      if_true, hsub, stripTrailingZeros_append]
    rfl

/-! ## The dashboard: `fetchData` and the mount effect -/

/-- The actions of the `try` block: a request at most, a store at most, a log
at most, and never a change of the loading flag. -/
theorem fetchBody_trace (apiUrl : String) (userInfo : Option Session) (date : JsDate)
    (o : FetchOutcome) (s : DashState) :
    ∃ mid, (fetchBody apiUrl userInfo date o s).trace = s.trace ++ mid ∧
      ∀ b, DashEffect.setIsLoading b ∉ mid := by
  unfold fetchBody
  cases date.iso with
  | none => exact ⟨[.consoleError], by simp [DashState.emit]⟩
  | some iso =>
    let url := checklistUrl apiUrl ((jsSplit iso 'T').headD "") (patientCode userInfo)
    cases o with
    | networkError => exact ⟨[.fetch url, .consoleError], by simp [DashState.emit, url]⟩
    | httpError => exact ⟨[.fetch url], by simp [DashState.emit, url]⟩
    | badJson => exact ⟨[.fetch url, .consoleError], by simp [DashState.emit, url]⟩
    | envelope success data =>
      by_cases h : success.truthy = true
      · exact ⟨[.fetch url, .setChecklistData data], by simp [DashState.emit, url, h]⟩
      · exact ⟨[.fetch url], by simp [DashState.emit, url, h]⟩

/-- C6: for every date and every outcome of the request, `fetchData` first
sets `isLoading` to true, then does its work without touching the flag, and
ends by setting it to false; `checklistData` is the payload after an ok
response whose envelope has `success` true, and is left as it was after a
network error, a non-ok status, an unreadable body or `success` false, and
a change of `checklistData` happens only for an ok envelope with a truthy
`success`. -/
theorem fetchData_loading_flag_and_frame (apiUrl : String) (userInfo : Option Session)
    (date : JsDate) (o : FetchOutcome) (s : DashState) :
    (fetchData apiUrl userInfo date o s).isLoading = false ∧
    (∃ mid, (fetchData apiUrl userInfo date o s).trace =
        s.trace ++ DashEffect.setIsLoading true :: (mid ++ [DashEffect.setIsLoading false]) ∧
      ∀ b, DashEffect.setIsLoading b ∉ mid) ∧
    (fetchData apiUrl userInfo date FetchOutcome.networkError s).checklistData =
      s.checklistData ∧
    (fetchData apiUrl userInfo date FetchOutcome.httpError s).checklistData =
      s.checklistData ∧
    (fetchData apiUrl userInfo date FetchOutcome.badJson s).checklistData =
      s.checklistData ∧
    (∀ data, (fetchData apiUrl userInfo date
        (FetchOutcome.envelope (JsVal.bool false) data) s).checklistData = s.checklistData) ∧
    (∀ iso data, (fetchData apiUrl userInfo ⟨some iso⟩
        (FetchOutcome.envelope (JsVal.bool true) data) s).checklistData = data) ∧
    ((fetchData apiUrl userInfo date o s).checklistData = s.checklistData ∨
      ∃ iso success data, date.iso = some iso ∧ o = FetchOutcome.envelope success data ∧
        success.truthy = true ∧ (fetchData apiUrl userInfo date o s).checklistData = data) := by
  refine ⟨rfl, ?_, ?_, ?_, ?_, ?_, ?_, ?_⟩
  · obtain ⟨mid, hmid, hno⟩ := fetchBody_trace apiUrl userInfo date o
      { s.emit (.setIsLoading true) with isLoading := true }
    refine ⟨mid, ?_, hno⟩
    simp only [DashState.emit] at hmid
    simp only [fetchData, DashState.emit, hmid]
    simp
  · cases h : date.iso <;> simp [fetchData, fetchBody, DashState.emit, h]
  · cases h : date.iso <;> simp [fetchData, fetchBody, DashState.emit, h]
  · cases h : date.iso <;> simp [fetchData, fetchBody, DashState.emit, h]
  · intro data
    cases h : date.iso <;> simp [fetchData, fetchBody, DashState.emit, h, JsVal.truthy]
  · intro iso data
    simp [fetchData, fetchBody, DashState.emit, JsVal.truthy]
  · cases h : date.iso with
    | none => left; simp [fetchData, fetchBody, DashState.emit, h]
    | some iso =>
      cases o with
      | networkError => left; simp [fetchData, fetchBody, DashState.emit, h]
      | httpError => left; simp [fetchData, fetchBody, DashState.emit, h]
      | badJson => left; simp [fetchData, fetchBody, DashState.emit, h]
      | envelope success data =>
        by_cases ht : success.truthy = true
        · right
          exact ⟨iso, success, data, rfl, rfl, ht, by
            simp [fetchData, fetchBody, DashState.emit, h, ht]⟩
        · left; simp [fetchData, fetchBody, DashState.emit, h, ht]

/-- C4: without a session the mount issues no request and nothing clears
`isLoading`, which keeps its initial value true, so the page rendered after
the mount is the loading placeholder; and with a session that has neither
`patientInfo.code` nor `code` the guard lets the mount issue a request, for
the patient code `undefined`. -/
theorem mount_without_session_stays_loading (apiUrl : String) (now : JsDate)
    (o : FetchOutcome) :
    (mount apiUrl none o (DashState.init now)).fetches = [] ∧
    (mount apiUrl none o (DashState.init now)).isLoading = true ∧
    render (mount apiUrl none o (DashState.init now)) = some View.loadingPlaceholder ∧
    patientCode (some emptySession) = JsVal.undefined ∧
    (mount "https://api.example" (some emptySession) FetchOutcome.httpError sampleMount).fetches =
      ["https://api.example/patient/daily-check/get/checklist?date=2024-11-30&code=undefined"] := by
  refine ⟨rfl, rfl, rfl, rfl, by decide⟩

/-! ## The dashboard: derived display -/

/-- C9: with vital signs present, `getCurrentValue` gives for `bloodPressure`
the text of the systolic value, a slash and the text of the diastolic value
(for integer readings their decimal digits, `120/80` for 120 and 80; for
120.5 and 80.25 the text `120.5/80.25`), for `oxygen`, `temperature` and
`pulse` the stored value itself (the number 98 for oxygen 98, the number
36.5 for temperature 36.5), and `--` for any other selection; without a
record or without vital signs it gives `--` for every selection. -/
theorem getCurrentValue_by_selection (vitalSigns : VitalSigns)
    (dailyCheckList : Option DailyCheckList) (selectedVital : String) (systolic diastolic : Nat)
    (hsel : selectedVital ∉ ["bloodPressure", "oxygen", "temperature", "pulse"])
    (hsys : systolic ≤ JsNum.maxSafeInteger) (hdia : diastolic ≤ JsNum.maxSafeInteger) :
    getCurrentValue (some ⟨some vitalSigns, dailyCheckList⟩) "bloodPressure" =
      JsVal.str (vitalSigns.bloodPressureSys.toStr ++ "/" ++ vitalSigns.bloodPressureDia.toStr) ∧
    getCurrentValue
        (some ⟨some { vitalSigns with
            bloodPressureSys := JsVal.num (JsNum.ofNat systolic)
            bloodPressureDia := JsVal.num (JsNum.ofNat diastolic) }, dailyCheckList⟩)
        "bloodPressure" =
      JsVal.str (toString systolic ++ "/" ++ toString diastolic) ∧
    getCurrentValue (some ⟨some vitalSigns, dailyCheckList⟩) "oxygen" = vitalSigns.oxygen ∧
    getCurrentValue (some ⟨some vitalSigns, dailyCheckList⟩) "temperature" =
      vitalSigns.temperature ∧
    getCurrentValue (some ⟨some vitalSigns, dailyCheckList⟩) "pulse" = vitalSigns.pulse ∧
    getCurrentValue (some ⟨some vitalSigns, dailyCheckList⟩) selectedVital = JsVal.str "--" ∧
    (∀ sel, getCurrentValue none sel = JsVal.str "--") ∧
    (∀ sel, getCurrentValue (some ⟨none, dailyCheckList⟩) sel = JsVal.str "--") ∧
    getCurrentValue (some (sampleRecord JsVal.null)) "bloodPressure" = JsVal.str "120/80" ∧
    getCurrentValue (some (sampleRecord JsVal.null)) "oxygen" = JsVal.num (JsNum.ofNat 98) ∧
    getCurrentValue (some (sampleRecord JsVal.null)) "temperature" =
      JsVal.num (JsNum.finite false ['3', '6', '5'] 2) ∧
    getCurrentValue (some fractionalRecord) "bloodPressure" = JsVal.str "120.5/80.25" ∧
    getCurrentValue (some hugeRecord) "bloodPressure" = JsVal.str "1e+21/80" := by
  simp only [List.mem_cons, List.mem_singleton, List.mem_nil_iff, or_false, not_or] at hsel
  obtain ⟨h1, h2, h3, h4⟩ := hsel
  refine ⟨?_, ?_, ?_, ?_, ?_, ?_, fun _ => rfl, fun _ => rfl, by decide, by decide, by decide,
    by decide, by decide⟩
  · simp [getCurrentValue]
  · simp [getCurrentValue, JsVal.toStr, JsNum.toStr_ofNat systolic hsys,
      JsNum.toStr_ofNat diastolic hdia]
  · simp [getCurrentValue]
  · simp [getCurrentValue]
  · simp [getCurrentValue]
  · simp [getCurrentValue, h1, h2, h3, h4]

theorem getCurrentValue_by_selection_witness :
    ("weight" ∉ ["bloodPressure", "oxygen", "temperature", "pulse"] ∧
      135 ≤ JsNum.maxSafeInteger ∧ 85 ≤ JsNum.maxSafeInteger) ∧
    (getCurrentValue (some ⟨some sampleVitals, none⟩) "bloodPressure" =
      JsVal.str (sampleVitals.bloodPressureSys.toStr ++ "/" ++
        sampleVitals.bloodPressureDia.toStr) ∧
    getCurrentValue
        (some ⟨some { sampleVitals with
            bloodPressureSys := JsVal.num (JsNum.ofNat 135)
            bloodPressureDia := JsVal.num (JsNum.ofNat 85) }, none⟩)
        "bloodPressure" =
      JsVal.str (toString 135 ++ "/" ++ toString 85) ∧
    getCurrentValue (some ⟨some sampleVitals, none⟩) "oxygen" = sampleVitals.oxygen ∧
    getCurrentValue (some ⟨some sampleVitals, none⟩) "temperature" = sampleVitals.temperature ∧
    getCurrentValue (some ⟨some sampleVitals, none⟩) "pulse" = sampleVitals.pulse ∧
    getCurrentValue (some ⟨some sampleVitals, none⟩) "weight" = JsVal.str "--" ∧
    (∀ sel, getCurrentValue none sel = JsVal.str "--") ∧
    (∀ sel, getCurrentValue (some ⟨none, none⟩) sel = JsVal.str "--") ∧
    getCurrentValue (some (sampleRecord JsVal.null)) "bloodPressure" = JsVal.str "120/80" ∧
    getCurrentValue (some (sampleRecord JsVal.null)) "oxygen" = JsVal.num (JsNum.ofNat 98) ∧
    getCurrentValue (some (sampleRecord JsVal.null)) "temperature" =
      JsVal.num (JsNum.finite false ['3', '6', '5'] 2) ∧
    getCurrentValue (some fractionalRecord) "bloodPressure" = JsVal.str "120.5/80.25" ∧
    getCurrentValue (some hugeRecord) "bloodPressure" = JsVal.str "1e+21/80") :=
  ⟨by decide, getCurrentValue_by_selection sampleVitals none "weight" 135 85 (by decide)
    (by decide) (by decide)⟩

/-- A key that is not among the names of a property list is not found. -/
theorem lookup_eq_none_of_not_mem (l : List (String × JsVal)) (k : String)
    (h : k ∉ l.map Prod.fst) : l.lookup k = none := by
  induction l with
  | nil => rfl
  | cons p l ih =>
    obtain ⟨name, v⟩ := p
    simp only [List.map_cons, List.mem_cons, not_or] at h
    have hne : (k == name) = false := by simpa using h.1
    simp only [List.lookup, hne]
    exact ih h.2

/-- On the three keys, on a missing status and on every other status whose
text is not the name of a property inherited from `Object.prototype`, the
lookup behaves as an exact-match table with a default. -/
theorem getCharacterImage_table (status : JsVal)
    (hkey : status.toStr ∉ imageTypes.map Prod.fst)
    (hproto : status.toStr ∉ objectPrototype.map Prod.fst) :
    getCharacterImage (JsVal.str "좋음") = "/img/marimo/Excellent-green.png" ∧
    getCharacterImage (JsVal.str "보통") = "/img/marimo/Neutral-yellow.png" ∧
    getCharacterImage (JsVal.str "나쁨") = "/img/marimo/Poor-red.png" ∧
    getCharacterImage JsVal.undefined = "/img/marimo/Neutral-yellow.png" ∧
    getCharacterImage JsVal.null = "/img/marimo/Neutral-yellow.png" ∧
    getCharacterImage status = "/img/marimo/Neutral-yellow.png" := by
  refine ⟨by decide, by decide, by decide, by decide, by decide, ?_⟩
  have hown : imageTypes.lookup status.toStr = none := lookup_eq_none_of_not_mem _ _ hkey
  have hinh : objectPrototype.lookup status.toStr = none :=
    lookup_eq_none_of_not_mem _ _ hproto
  have hprop : getProp imageTypes status = JsVal.undefined := by
    simp [getProp, hown, hinh]
  rw [getCharacterImage, hprop]
  decide

/-- C8: the statuses `__proto__` and `constructor` are none of the three
keys, yet the read `imageTypes[status]` finds the members inherited from
`Object.prototype`, which are truthy, so the default is not taken and the
result is none of the three images. -/
theorem getCharacterImage_inherited_key_not_default :
    (JsVal.str "__proto__").toStr ∉ imageTypes.map Prod.fst ∧
    getCharacterImage (JsVal.str "__proto__") = "/img/marimo/[object Object].png" ∧
    getCharacterImage (JsVal.str "__proto__") ≠ "/img/marimo/Neutral-yellow.png" ∧
    (JsVal.str "constructor").toStr ∉ imageTypes.map Prod.fst ∧
    getCharacterImage (JsVal.str "constructor") ∉
      ["/img/marimo/Excellent-green.png", "/img/marimo/Neutral-yellow.png",
        "/img/marimo/Poor-red.png"] := by
  decide

/-! ## The dashboard: the patient-analysis list -/

theorem splitChars_ne_nil (sep : Char) (cs : List Char) : splitChars sep cs ≠ [] := by
  cases cs with
  | nil => simp [splitChars]
  | cons c cs =>
    by_cases h : c = sep
    · simp [splitChars, h]
    · simp only [splitChars, h, if_false]
      split <;> simp

theorem joinChars_cons_head (sep c : Char) (seg : List Char) (segs : List (List Char)) :
    joinChars sep ((c :: seg) :: segs) = c :: joinChars sep (seg :: segs) := by
  cases segs <;> simp [joinChars]

/-- Joining the segments with the separator gives the text back. -/
theorem joinChars_splitChars (sep : Char) (cs : List Char) :
    joinChars sep (splitChars sep cs) = cs := by
  induction cs with
  | nil => simp [splitChars, joinChars]
  | cons c cs ih =>
    by_cases h : c = sep
    · simp only [splitChars, h, if_true]
      cases hs : splitChars sep cs with
      | nil => exact absurd hs (splitChars_ne_nil sep cs)
      | cons seg segs => rw [hs] at ih; simp [joinChars, ih]
    · simp only [splitChars, h, if_false]
      cases hs : splitChars sep cs with
      | nil => exact absurd hs (splitChars_ne_nil sep cs)
      | cons seg segs => rw [hs] at ih; simp only [joinChars_cons_head, ih]

/-- No segment contains the separator. -/
theorem sep_not_mem_splitChars (sep : Char) (cs : List Char) :
    ∀ seg ∈ splitChars sep cs, sep ∉ seg := by
  induction cs with
  | nil => simp [splitChars]
  | cons c cs ih =>
    by_cases h : c = sep
    · simp only [splitChars, h, if_true, List.mem_cons]
      rintro seg (rfl | hseg)
      · simp
      · exact ih seg hseg
    · simp only [splitChars, h, if_false]
      cases hs : splitChars sep cs with
      | nil => exact absurd hs (splitChars_ne_nil sep cs)
      | cons seg segs =>
        rw [hs] at ih
        simp only [List.mem_cons]
        rintro x (rfl | hx)
        · have := ih seg (by simp)
          simp only [List.mem_cons, not_or]
          exact ⟨fun e => h e.symm, this⟩
        · exact ih x (by simp [hx])

/-- There is one segment more than there are separators. -/
theorem length_splitChars (sep : Char) (cs : List Char) :
    (splitChars sep cs).length = cs.count sep + 1 := by
  induction cs with
  | nil => simp [splitChars]
  | cons c cs ih =>
    by_cases h : c = sep
    · simp [splitChars, h, ih]
    · simp only [splitChars, h, if_false]
      cases hs : splitChars sep cs with
      | nil => exact absurd hs (splitChars_ne_nil sep cs)
      | cons seg segs =>
        rw [hs] at ih
        simp only [List.length_cons] at ih ⊢
        rw [List.count_cons_of_ne (fun e => h e.symm)]
        exact ih

/-- The list for a detail text: one bullet per segment of the text between
line feeds, in order; and the single no-data bullet when the detail, the
`dailyCheckList` or the record is missing. -/
theorem analysisBullets_cases (vitalSigns : Option VitalSigns) (word summary : JsVal)
    (detail : String) :
    analysisBullets (some ⟨vitalSigns, some ⟨word, summary, JsVal.str detail⟩⟩) =
      some ((jsSplit detail '\n').map fun line => "• " ++ line) ∧
    joinChars '\n' ((jsSplit detail '\n').map String.data) = detail.data ∧
    (∀ line ∈ jsSplit detail '\n', '\n' ∉ line.data) ∧
    analysisBullets (some ⟨vitalSigns, some ⟨word, summary, JsVal.undefined⟩⟩) =
      some ["• 분석 데이터가 없습니다."] ∧
    analysisBullets (some ⟨vitalSigns, some ⟨word, summary, JsVal.null⟩⟩) =
      some ["• 분석 데이터가 없습니다."] ∧
    analysisBullets (some ⟨vitalSigns, none⟩) = some ["• 분석 데이터가 없습니다."] ∧
    analysisBullets none = some ["• 분석 데이터가 없습니다."] ∧
    analysisBullets (some (sampleRecord (JsVal.str "A\nB\nC"))) = some ["• A", "• B", "• C"] := by
  refine ⟨rfl, ?_, ?_, rfl, rfl, rfl, rfl, by decide⟩
  · simp only [jsSplit, List.map_map]
    have : (String.data ∘ String.mk) = id := by funext l; rfl
    rw [this, List.map_id, joinChars_splitChars]
  · intro line hline
    simp only [jsSplit, List.mem_map] at hline
    obtain ⟨seg, hseg, rfl⟩ := hline
    exact sep_not_mem_splitChars _ _ seg hseg

/-- C5: for the empty detail text the list is built from the one empty
segment of the split: a single bullet with no text, not the no-data
bullet. -/
theorem empty_detail_renders_blank_bullet :
    analysisBullets (some (sampleRecord (JsVal.str ""))) = some ["• "] ∧
    analysisBullets (some (sampleRecord (JsVal.str ""))) ≠ some ["• 분석 데이터가 없습니다."] ∧
    (JsVal.str "").or (JsVal.str "분석 결과가 없습니다.") = JsVal.str "분석 결과가 없습니다." := by
  decide

end GoodCare
